import Mathlib

/-!
Verification of the OptionPilot strategy-metrics core.

This file shallowly embeds the option-strategy calculator
(`src/strategy_calculator.py`), the payoff evaluator
(`src/payoff_diagram.py`), and the journal settlement function
(`src/trading_journal.py`) of the OptionPilot repository, together with the
data model of `src/models.py`, and proves the frozen claims about them.

Monetary quantities (`Decimal(str(float))` in the source) are embedded as
rationals `ℚ`: every decimal literal that reaches the computation is an
exact rational, and all subsequent Decimal arithmetic in the source is
exact rational arithmetic followed by explicit quantization.
-/

namespace OptionPilot

/-! ## Decimal quantization

`Decimal.quantize(Decimal('0.01'), rounding=ROUND_HALF_UP)` rounds to a
multiple of 1/100 with ties away from zero; `quantize(Decimal('0.01'))`
with no rounding argument uses the context default `ROUND_HALF_EVEN`
(banker's rounding, ties to the even cent). -/

/-- Round a rational to the nearest integer, ties away from zero
(Python `ROUND_HALF_UP`). -/
def roundHalfUpInt (x : ℚ) : ℤ :=
  if 0 ≤ x then ⌊x + 1/2⌋ else -⌊-x + 1/2⌋

/-- Round a rational to the nearest integer, ties to the even integer
(Python `ROUND_HALF_EVEN`, the `Decimal` context default). -/
def roundHalfEvenInt (x : ℚ) : ℤ :=
  let f := ⌊x⌋
  let r := x - f
  if r < 1/2 then f
  else if 1/2 < r then f + 1
  else if 2 ∣ f then f else f + 1

/-- `x.quantize(Decimal('0.01'), rounding=ROUND_HALF_UP)`. -/
def roundHalfUpCents (x : ℚ) : ℚ :=
  (roundHalfUpInt (x * 100) : ℚ) / 100

/-- `x.quantize(Decimal('0.01'))` (context default `ROUND_HALF_EVEN`). -/
def roundHalfEvenCents (x : ℚ) : ℚ :=
  (roundHalfEvenInt (x * 100) : ℚ) / 100

/-! ## Data model (`src/models.py`)

`symbol`, `expiration` and `created_at` fields never enter any of the
computations verified here and are omitted from the embedding; the
remaining fields and the constructor (`__post_init__`) invariants are
kept exactly. -/

/-- `option_type` ∈ {'call', 'put'} (`OptionContract.__post_init__`). -/
inductive OptionType where
  | call : OptionType
  | put : OptionType
deriving DecidableEq

/-- `action` ∈ {'buy', 'sell'} (`OptionLeg.__post_init__`). -/
inductive Action where
  | buy : Action
  | sell : Action
deriving DecidableEq

/-- `OptionContract` of `src/models.py` (numeric fields as exact decimals). -/
structure OptionContract where
  strike : ℚ
  option_type : OptionType
  bid : ℚ
  ask : ℚ
deriving DecidableEq

/-- `OptionContract.__post_init__`: strike > 0, bid ≥ 0, ask ≥ bid
(the type constraint is enforced by `OptionType`). -/
def OptionContract.Valid (c : OptionContract) : Prop :=
  0 < c.strike ∧ 0 ≤ c.bid ∧ c.bid ≤ c.ask

/-- `OptionLeg` of `src/models.py`. -/
structure OptionLeg where
  action : Action
  contract : OptionContract
  quantity : ℕ := 1
deriving DecidableEq

/-- `OptionLeg.__post_init__`: quantity > 0 (the action constraint is
enforced by `Action`), plus the contract invariants. -/
def OptionLeg.Valid (l : OptionLeg) : Prop :=
  l.contract.Valid ∧ 0 < l.quantity

/-- `Strategy` of `src/models.py` (`underlying_symbol`, `created_at`
omitted: they never enter a computation). -/
structure Strategy where
  legs : List OptionLeg
deriving DecidableEq

/-- `Strategy.__post_init__` (1–2 legs) plus validity of every leg. -/
def Strategy.Valid (s : Strategy) : Prop :=
  (∀ l ∈ s.legs, l.Valid) ∧ 1 ≤ s.legs.length ∧ s.legs.length ≤ 2

/-- `StrategyMetrics` of `src/models.py`. -/
structure StrategyMetrics where
  net_premium : ℚ
  max_profit : ℚ
  max_loss : ℚ
  breakeven_points : List ℚ
  margin_requirement : ℚ
  return_on_margin : ℚ
deriving DecidableEq

/-- `CalculationError` of `src/strategy_calculator.py`. -/
structure CalculationError where
  msg : String
deriving DecidableEq

/-! ## StrategyCalculator (`src/strategy_calculator.py`)

Helper functions are only ever called with 1 or 2 legs (the public entry
point guards the leg count), so their catch-all list patterns are
unreachable through `calculate_strategy_metrics`. On a two-element list,
Python's `sorted` yields `[min, max]`, embedded as `min`/`max` of the two
strikes. -/

/-- Per-share price of a leg: `bid` if sell, `ask` if buy
(line 43 of `strategy_calculator.py`). -/
def legPrice (leg : OptionLeg) : ℚ :=
  match leg.action with
  | .sell => leg.contract.bid
  | .buy => leg.contract.ask

/-- `_calculate_net_premium`: signed accumulation (`+` sell, `-` buy) of
`price * quantity`, quantized half-up at the end. -/
def _calculate_net_premium (legs : List OptionLeg) : ℚ :=
  roundHalfUpCents (legs.foldl
    (fun acc leg =>
      let premium := legPrice leg * (leg.quantity : ℚ)
      acc + match leg.action with
            | .sell => premium
            | .buy => -premium)
    0)

/-- `_calculate_max_profit`. -/
def _calculate_max_profit (legs : List OptionLeg) (net_premium : ℚ) : ℚ :=
  match legs with
  | [leg] =>
    if leg.action = .buy ∧ leg.contract.option_type = .call then
      99999  -- Unlimited upside
    else if leg.action = .sell then net_premium else |net_premium|
  | [l1, l2] =>
    -- Two-leg spread
    let lower := min l1.contract.strike l2.contract.strike
    let upper := max l1.contract.strike l2.contract.strike
    let spread_value := (upper - lower) * 100
    if 0 ≤ net_premium then net_premium else spread_value + net_premium
  | _ => 0  -- unreachable: the entry point enforces 1-2 legs

/-- `_calculate_max_loss`. -/
def _calculate_max_loss (legs : List OptionLeg) (net_premium : ℚ) : ℚ :=
  match legs with
  | [leg] =>
    if leg.action = .buy then |net_premium| else 99999
  | [l1, l2] =>
    -- Two-leg spread
    let lower := min l1.contract.strike l2.contract.strike
    let upper := max l1.contract.strike l2.contract.strike
    let spread_value := (upper - lower) * 100
    if 0 ≤ net_premium then spread_value - net_premium else |net_premium|
  | _ => 0  -- unreachable: the entry point enforces 1-2 legs

/-- `_calculate_breakeven_points`. -/
def _calculate_breakeven_points (legs : List OptionLeg) (net_premium : ℚ) :
    List ℚ :=
  match legs with
  | [leg] =>
    let strike := leg.contract.strike
    let premium_amount := |net_premium|
    let breakeven :=
      match leg.contract.option_type with
      | .call => strike + premium_amount
      | .put => strike - premium_amount
    [roundHalfUpCents breakeven]
  | [l1, l2] =>
    -- Two-leg spread
    let lower_strike := min l1.contract.strike l2.contract.strike
    let upper_strike := max l1.contract.strike l2.contract.strike
    let option_types := [l1.contract.option_type, l2.contract.option_type]
    let premium_per_share := net_premium / 100
    let breakeven :=
      if OptionType.call ∈ option_types then lower_strike + premium_per_share
      else upper_strike - premium_per_share
    [roundHalfUpCents breakeven]
  | _ => []  -- unreachable: the entry point enforces 1-2 legs

/-- `_calculate_margin_requirement`. -/
def _calculate_margin_requirement (max_loss net_premium : ℚ) : ℚ :=
  if 0 ≤ net_premium then max_loss else |net_premium|

/-- `_calculate_return_on_margin`. -/
def _calculate_return_on_margin (max_profit margin_requirement : ℚ) : ℚ :=
  if margin_requirement ≤ 0 ∨ 99999 ≤ max_profit ∨ 99999 ≤ margin_requirement
  then 0
  else roundHalfUpCents (max_profit / margin_requirement * 100)

/-- `calculate_strategy_metrics`: leg-count guard, then the metric
pipeline. -/
def calculate_strategy_metrics (strategy : Strategy) :
    Except CalculationError StrategyMetrics :=
  if strategy.legs.length = 0 ∨ 2 < strategy.legs.length then
    .error ⟨"Strategy must have 1-2 legs for MVP"⟩
  else
    let net_premium := _calculate_net_premium strategy.legs
    let max_profit := _calculate_max_profit strategy.legs net_premium
    let max_loss := _calculate_max_loss strategy.legs net_premium
    let breakeven_points := _calculate_breakeven_points strategy.legs net_premium
    let margin_requirement := _calculate_margin_requirement max_loss net_premium
    let return_on_margin := _calculate_return_on_margin max_profit margin_requirement
    .ok {
      net_premium := net_premium
      max_profit := max_profit
      max_loss := max_loss
      breakeven_points := breakeven_points
      margin_requirement := margin_requirement
      return_on_margin := return_on_margin
    }

/-! ## PayoffDiagramGenerator (`src/payoff_diagram.py`) -/

/-- Per-leg payoff of `_calculate_payoff_at_price` (lines 46-67):
intrinsic value at expiration, then position P&L by action. -/
def legPayoff (leg : OptionLeg) (stock_price : ℚ) : ℚ :=
  let strike := leg.contract.strike
  let intrinsic_value :=
    match leg.contract.option_type with
    | .call => max 0 (stock_price - strike)
    | .put => max 0 (strike - stock_price)
  match leg.action with
  | .buy =>
    intrinsic_value * 100 * (leg.quantity : ℚ) -
      leg.contract.ask * (leg.quantity : ℚ)
  | .sell =>
    leg.contract.bid * (leg.quantity : ℚ) -
      intrinsic_value * 100 * (leg.quantity : ℚ)

/-- `_calculate_payoff_at_price`: sum of leg payoffs, quantized with
`quantize(Decimal('0.01'))` — the context-default half-even rounding. -/
def _calculate_payoff_at_price (legs : List OptionLeg) (stock_price : ℚ) : ℚ :=
  roundHalfEvenCents (legs.foldl (fun acc leg => acc + legPayoff leg stock_price) 0)

/-! ## TradingJournal settlement (`src/trading_journal.py`) -/

/-- `calculate_final_pnl` (lines 63-74). -/
def calculate_final_pnl (strategy : Strategy) (metrics : StrategyMetrics)
    (closing_price : ℚ) : ℚ :=
  if 0 < metrics.net_premium then
    -- Credit spread
    match strategy.legs.map (fun leg => leg.contract.strike) with
    | [a, b] =>
      let lower := min a b
      let upper := max a b
      if lower ≤ closing_price ∧ closing_price ≤ upper then
        -metrics.max_loss
      else metrics.max_profit
    | _ => metrics.net_premium
  else
    -- Debit spread
    match metrics.breakeven_points with
    | [] => metrics.net_premium
    | bp :: _ => if bp < closing_price then metrics.max_profit else metrics.max_loss

/-! ## Spec-refinement definitions

These two definitions follow the SPEC's words (not the source) and are
compared with the source-derived definitions above. -/

/-- Signed contribution of one leg to the net premium: `+price*quantity`
for a sell, `-price*quantity` for a buy. -/
def legSignedPremium (leg : OptionLeg) : ℚ :=
  match leg.action with
  | .sell => legPrice leg * (leg.quantity : ℚ)
  | .buy => -(legPrice leg * (leg.quantity : ℚ))

/-- Modelled from the spec's words (§4.1 net premium): sum over legs of
the signed premium, rounded to cents half-up only at the end. -/
def netPremiumSpec (legs : List OptionLeg) : ℚ :=
  roundHalfUpCents ((legs.map legSignedPremium).sum)

/-- Modelled from the spec's words (§4.2): total strategy payoff is the
exact decimal sum of the per-leg payoffs, before final rounding. -/
def payoffSumSpec (legs : List OptionLeg) (stock_price : ℚ) : ℚ :=
  (legs.map (fun leg => legPayoff leg stock_price)).sum

/-! ## Rounding lemmas -/

theorem roundHalfUpInt_eq_of_abs_lt {x : ℚ} {z : ℤ} (h : |x - z| < 1/2) :
    roundHalfUpInt x = z := by
  rw [abs_sub_lt_iff] at h
  obtain ⟨h1, h2⟩ := h
  unfold roundHalfUpInt
  split
  · rw [Int.floor_eq_iff]
    constructor
    · linarith
    · linarith
  · have hz : ⌊-x + 1/2⌋ = -z := by
      rw [Int.floor_eq_iff]
      constructor
      · push_cast; linarith
      · push_cast; linarith
    rw [hz, neg_neg]

theorem roundHalfUpInt_tie_neg {x : ℚ} {z : ℤ} (hx : x < 0)
    (h : x = z + 1/2) : roundHalfUpInt x = z := by
  unfold roundHalfUpInt
  rw [if_neg (not_le.mpr hx)]
  have hz : ⌊-x + 1/2⌋ = -z := by
    rw [Int.floor_eq_iff]
    subst h
    constructor
    · push_cast; linarith
    · push_cast; linarith
  rw [hz, neg_neg]

theorem roundHalfEvenInt_eq_of_abs_lt {x : ℚ} {z : ℤ} (h : |x - z| < 1/2) :
    roundHalfEvenInt x = z := by
  rw [abs_sub_lt_iff] at h
  obtain ⟨h1, h2⟩ := h
  unfold roundHalfEvenInt
  rcases le_or_lt (z : ℚ) x with hc | hc
  · have hf : ⌊x⌋ = z := by
      rw [Int.floor_eq_iff]
      exact ⟨hc, by linarith⟩
    rw [hf, if_pos (by linarith)]
  · have hf : ⌊x⌋ = z - 1 := by
      rw [Int.floor_eq_iff]
      constructor
      · push_cast; linarith
      · push_cast; linarith
    rw [hf]
    have hr1 : ¬(x - ((z - 1 : ℤ) : ℚ) < 1/2) := by push_cast; push_neg; linarith
    have hr2 : (1/2 : ℚ) < x - ((z - 1 : ℤ) : ℚ) := by push_cast; linarith
    rw [if_neg hr1, if_pos hr2, sub_add_cancel]

theorem roundHalfUpCents_eq_div {x : ℚ} {z : ℤ} (h : |x * 100 - z| < 1/2) :
    roundHalfUpCents x = z / 100 := by
  unfold roundHalfUpCents
  rw [roundHalfUpInt_eq_of_abs_lt h]

theorem roundHalfEvenCents_eq_div {x : ℚ} {z : ℤ} (h : |x * 100 - z| < 1/2) :
    roundHalfEvenCents x = z / 100 := by
  unfold roundHalfEvenCents
  rw [roundHalfEvenInt_eq_of_abs_lt h]

theorem exists_int_of_den_one {x : ℚ} (h : x.den = 1) : ∃ n : ℤ, x = (n : ℚ) :=
  ⟨x.num, (Rat.coe_int_num_of_den_eq_one h).symm⟩

theorem roundHalfUpCents_eq_self {x : ℚ} (h : (x * 100).den = 1) :
    roundHalfUpCents x = x := by
  obtain ⟨n, hn⟩ := exists_int_of_den_one h
  have := roundHalfUpCents_eq_div (x := x) (z := n) (by rw [hn]; simp)
  rw [this, ← hn]
  ring

theorem roundHalfEvenCents_eq_self {x : ℚ} (h : (x * 100).den = 1) :
    roundHalfEvenCents x = x := by
  obtain ⟨n, hn⟩ := exists_int_of_den_one h
  have := roundHalfEvenCents_eq_div (x := x) (z := n) (by rw [hn]; simp)
  rw [this, ← hn]
  ring

theorem den_one_add {x y : ℚ} (hx : x.den = 1) (hy : y.den = 1) :
    (x + y).den = 1 := by
  obtain ⟨n, rfl⟩ := exists_int_of_den_one hx
  obtain ⟨m, rfl⟩ := exists_int_of_den_one hy
  rw [show ((n : ℚ) + m) = ((n + m : ℤ) : ℚ) by push_cast; ring]
  exact Rat.den_intCast _

theorem den_one_neg {x : ℚ} (hx : x.den = 1) : (-x).den = 1 := by
  obtain ⟨n, rfl⟩ := exists_int_of_den_one hx
  rw [show (-(n : ℚ)) = ((-n : ℤ) : ℚ) by push_cast; ring]
  exact Rat.den_intCast _

theorem den_one_sub {x y : ℚ} (hx : x.den = 1) (hy : y.den = 1) :
    (x - y).den = 1 := by
  rw [sub_eq_add_neg]
  exact den_one_add hx (den_one_neg hy)

theorem den_one_mul {x y : ℚ} (hx : x.den = 1) (hy : y.den = 1) :
    (x * y).den = 1 := by
  obtain ⟨n, rfl⟩ := exists_int_of_den_one hx
  obtain ⟨m, rfl⟩ := exists_int_of_den_one hy
  rw [show ((n : ℚ) * m) = ((n * m : ℤ) : ℚ) by push_cast; ring]
  exact Rat.den_intCast _

/-! ## Structural lemmas -/

theorem foldl_signed_premium (legs : List OptionLeg) (acc : ℚ) :
    legs.foldl
      (fun net_premium leg =>
        let premium := legPrice leg * (leg.quantity : ℚ)
        net_premium + match leg.action with
                      | .sell => premium
                      | .buy => -premium) acc
      = acc + (legs.map legSignedPremium).sum := by
  induction legs generalizing acc with
  | nil => simp
  | cons l t ih =>
    obtain ⟨act, c, q⟩ := l
    cases act <;>
      simp only [List.foldl_cons, List.map_cons, List.sum_cons, ih,
        legSignedPremium] <;> ring

theorem net_premium_eq_spec (legs : List OptionLeg) :
    _calculate_net_premium legs = netPremiumSpec legs := by
  unfold _calculate_net_premium netPremiumSpec
  rw [foldl_signed_premium, zero_add]

theorem foldl_payoff (legs : List OptionLeg) (p acc : ℚ) :
    legs.foldl (fun acc leg => acc + legPayoff leg p) acc
      = acc + (legs.map (fun leg => legPayoff leg p)).sum := by
  induction legs generalizing acc with
  | nil => simp
  | cons l t ih => simp [ih]; ring

theorem payoff_eq_spec (legs : List OptionLeg) (p : ℚ) :
    _calculate_payoff_at_price legs p = roundHalfEvenCents (payoffSumSpec legs p) := by
  unfold _calculate_payoff_at_price payoffSumSpec
  rw [foldl_payoff, zero_add]

theorem calc_ok {s : Strategy} (h : ¬(s.legs.length = 0 ∨ 2 < s.legs.length)) :
    calculate_strategy_metrics s = .ok {
      net_premium := _calculate_net_premium s.legs
      max_profit := _calculate_max_profit s.legs (_calculate_net_premium s.legs)
      max_loss := _calculate_max_loss s.legs (_calculate_net_premium s.legs)
      breakeven_points :=
        _calculate_breakeven_points s.legs (_calculate_net_premium s.legs)
      margin_requirement :=
        _calculate_margin_requirement
          (_calculate_max_loss s.legs (_calculate_net_premium s.legs))
          (_calculate_net_premium s.legs)
      return_on_margin :=
        _calculate_return_on_margin
          (_calculate_max_profit s.legs (_calculate_net_premium s.legs))
          (_calculate_margin_requirement
            (_calculate_max_loss s.legs (_calculate_net_premium s.legs))
            (_calculate_net_premium s.legs)) } := by
  unfold calculate_strategy_metrics
  rw [if_neg h]

theorem sell_ne_buy : ¬ (Action.sell = Action.buy) := by decide

theorem buy_ne_sell : ¬ (Action.buy = Action.sell) := by decide

theorem put_ne_call : ¬ (OptionType.put = OptionType.call) := by decide

theorem call_ne_put : ¬ (OptionType.call = OptionType.put) := by decide

theorem legs_cases {s : Strategy} (h : ¬(s.legs.length = 0 ∨ 2 < s.legs.length)) :
    (∃ l, s.legs = [l]) ∨ (∃ l1 l2, s.legs = [l1, l2]) := by
  match hl : s.legs with
  | [] => rw [hl] at h; simp at h
  | [a] => exact .inl ⟨a, rfl⟩
  | [a, b] => exact .inr ⟨a, b, rfl⟩
  | a :: b :: c :: t => rw [hl] at h; simp at h

theorem payoff_two (l1 l2 : OptionLeg) (p : ℚ) :
    _calculate_payoff_at_price [l1, l2] p =
      roundHalfEvenCents (legPayoff l1 p + legPayoff l2 p) := by
  unfold _calculate_payoff_at_price
  simp only [List.foldl_cons, List.foldl_nil, zero_add]

theorem net_two (l1 l2 : OptionLeg) :
    _calculate_net_premium [l1, l2] =
      roundHalfUpCents (legSignedPremium l1 + legSignedPremium l2) := by
  rw [net_premium_eq_spec]
  unfold netPremiumSpec
  simp

theorem net_one (l : OptionLeg) :
    _calculate_net_premium [l] = roundHalfUpCents (legSignedPremium l) := by
  rw [net_premium_eq_spec]
  unfold netPremiumSpec
  simp

theorem ok_inv {s : Strategy} {m : StrategyMetrics}
    (h : calculate_strategy_metrics s = .ok m) :
    ¬(s.legs.length = 0 ∨ 2 < s.legs.length) ∧
    m = {
      net_premium := _calculate_net_premium s.legs
      max_profit := _calculate_max_profit s.legs (_calculate_net_premium s.legs)
      max_loss := _calculate_max_loss s.legs (_calculate_net_premium s.legs)
      breakeven_points :=
        _calculate_breakeven_points s.legs (_calculate_net_premium s.legs)
      margin_requirement :=
        _calculate_margin_requirement
          (_calculate_max_loss s.legs (_calculate_net_premium s.legs))
          (_calculate_net_premium s.legs)
      return_on_margin :=
        _calculate_return_on_margin
          (_calculate_max_profit s.legs (_calculate_net_premium s.legs))
          (_calculate_margin_requirement
            (_calculate_max_loss s.legs (_calculate_net_premium s.legs))
            (_calculate_net_premium s.legs)) } := by
  by_cases hg : s.legs.length = 0 ∨ 2 < s.legs.length
  · unfold calculate_strategy_metrics at h
    rw [if_pos hg] at h
    exact absurd h (by simp)
  · rw [calc_ok hg] at h
    simp only [Except.ok.injEq] at h
    exact ⟨hg, h.symm⟩

/-! ## Concrete strategies used by witnesses and counterexamples -/

/-- Single bought call with 3-decimal quotes (spec §8 rounding case). -/
def buy877Leg : OptionLeg :=
  { action := .buy,
    contract :=
      { strike := 150, option_type := .call, bid := 8555/1000, ask := 8777/1000 } }

def buy877S : Strategy := ⟨[buy877Leg]⟩

def buy877M : StrategyMetrics :=
  { net_premium := -(878/100), max_profit := 99999, max_loss := 878/100,
    breakeven_points := [15878/100], margin_requirement := 878/100,
    return_on_margin := 0 }

theorem buy877_eval : calculate_strategy_metrics buy877S = .ok buy877M := by
  have hnet : _calculate_net_premium buy877S.legs = -(878/100) := by
    show _calculate_net_premium [buy877Leg] = _
    rw [net_one,
      show legSignedPremium buy877Leg = -(8777/1000) by
        norm_num [legSignedPremium, legPrice, buy877Leg],
      roundHalfUpCents_eq_div (z := -878) (by rw [abs_lt]; norm_num)]
    norm_num
  rw [calc_ok (by simp [buy877S])]
  refine congrArg Except.ok ?_
  rw [hnet]
  show StrategyMetrics.mk _ _ _ _ _ _ = _
  unfold buy877M
  rw [StrategyMetrics.mk.injEq]
  refine ⟨rfl, ?_, ?_, ?_, ?_, ?_⟩
  · norm_num [buy877S, _calculate_max_profit, buy877Leg]
  · norm_num [buy877S, _calculate_max_loss, buy877Leg, abs_neg,
      abs_of_nonneg]
  · show _calculate_breakeven_points [buy877Leg] _ = _
    rw [show _calculate_breakeven_points [buy877Leg] (-(878/100)) =
        [roundHalfUpCents (150 + |(-(878/100) : ℚ)|)] by
      norm_num [_calculate_breakeven_points, buy877Leg]]
    rw [show (150 : ℚ) + |(-(878/100) : ℚ)| = 15878/100 by
      rw [abs_neg, abs_of_nonneg (by norm_num)]; norm_num]
    rw [roundHalfUpCents_eq_div (z := 15878) (by norm_num)]
    norm_num
  · norm_num [buy877S, _calculate_max_loss, _calculate_margin_requirement,
      buy877Leg, abs_neg, abs_of_nonneg]
  · norm_num [buy877S, _calculate_max_profit, _calculate_max_loss,
      _calculate_margin_requirement, _calculate_return_on_margin, buy877Leg]

/-! ## Claims -/

/-- C1: for every two-leg strategy, `calculate_strategy_metrics` computes
`spread_value = (upper_strike - lower_strike) * 100` over the two strikes
sorted ascending, and returns `max_profit = net_premium`,
`max_loss = spread_value - net_premium` when `net_premium ≥ 0` (net
credit), and `max_profit = spread_value + net_premium`,
`max_loss = |net_premium|` when `net_premium < 0` (net debit). -/
theorem two_leg_spread_metrics (l1 l2 : OptionLeg) :
    ∃ m : StrategyMetrics,
      calculate_strategy_metrics ⟨[l1, l2]⟩ = .ok m ∧
      m.net_premium = _calculate_net_premium [l1, l2] ∧
      m.max_profit =
        (if 0 ≤ _calculate_net_premium [l1, l2] then _calculate_net_premium [l1, l2]
         else (max l1.contract.strike l2.contract.strike -
            min l1.contract.strike l2.contract.strike) * 100 +
            _calculate_net_premium [l1, l2]) ∧
      m.max_loss =
        (if 0 ≤ _calculate_net_premium [l1, l2] then
            (max l1.contract.strike l2.contract.strike -
              min l1.contract.strike l2.contract.strike) * 100 -
              _calculate_net_premium [l1, l2]
         else |_calculate_net_premium [l1, l2]|) := by
  refine ⟨_, calc_ok (by simp), rfl, ?_, ?_⟩
  · simp [_calculate_max_profit]
  · simp [_calculate_max_loss]

/-- C8: `calculate_strategy_metrics` fails with a `CalculationError` if
and only if the leg count is outside [1, 2]; with 1 or 2 legs it
succeeds. -/
theorem calculation_error_iff_leg_count (s : Strategy) :
    ((∃ e, calculate_strategy_metrics s = .error e) ↔
      (s.legs.length = 0 ∨ 2 < s.legs.length)) ∧
    ((∃ m, calculate_strategy_metrics s = .ok m) ↔
      (1 ≤ s.legs.length ∧ s.legs.length ≤ 2)) := by
  by_cases h : s.legs.length = 0 ∨ 2 < s.legs.length
  · have he : calculate_strategy_metrics s =
        .error ⟨"Strategy must have 1-2 legs for MVP"⟩ := by
      unfold calculate_strategy_metrics
      rw [if_pos h]
    constructor
    · exact ⟨fun _ => h, fun _ => ⟨_, he⟩⟩
    · constructor
      · rintro ⟨m, hm⟩
        rw [he] at hm
        exact absurd hm (by simp)
      · intro hlen
        omega
  · have hok := calc_ok h
    constructor
    · constructor
      · rintro ⟨e, hein⟩
        rw [hok] at hein
        exact absurd hein (by simp)
      · intro hbad
        exact absurd hbad h
    · exact ⟨fun _ => by omega, fun _ => ⟨_, hok⟩⟩

/-- C2: the net premium returned by `calculate_strategy_metrics` is the
sum over legs of `price * quantity` signed `+` for sell / `-` for buy,
with price = bid for a sell and ask for a buy, rounded half-up to 2
decimals only at the end; a single buy leg with ask 8.777 yields
net_premium = -8.78. -/
theorem net_premium_refines_spec :
    (∀ (s : Strategy) (m : StrategyMetrics),
      calculate_strategy_metrics s = .ok m →
      m.net_premium = netPremiumSpec s.legs) ∧
    (∀ leg : OptionLeg, leg.action = .buy → leg.contract.ask = 8777/1000 →
      leg.quantity = 1 →
      ∀ m, calculate_strategy_metrics ⟨[leg]⟩ = .ok m →
        m.net_premium = -(878/100)) := by
  constructor
  · intro s m h
    rw [(ok_inv h).2]
    exact net_premium_eq_spec s.legs
  · intro leg hb ha hq m h
    rw [(ok_inv h).2]
    show _calculate_net_premium [leg] = _
    have hsp : legSignedPremium leg = -(leg.contract.ask * (leg.quantity : ℚ)) := by
      unfold legSignedPremium legPrice
      rw [hb]
    rw [net_one, hsp, ha, hq,
      roundHalfUpCents_eq_div (z := -878) (by rw [abs_lt]; norm_num)]
    norm_num

theorem net_premium_refines_spec_witness :
    calculate_strategy_metrics buy877S = .ok buy877M ∧
    buy877M.net_premium = netPremiumSpec buy877S.legs ∧
    buy877M.net_premium = -(878/100) :=
  ⟨buy877_eval, net_premium_refines_spec.1 buy877S buy877M buy877_eval,
    net_premium_refines_spec.2 buy877Leg rfl rfl rfl buy877M buy877_eval⟩

/-- C3: `calculate_strategy_metrics` always returns exactly one breakeven
point. For a single leg it is `strike + |net_premium|` for a call and
`strike - |net_premium|` for a put, with the whole-contract dollar
`|net_premium|` added to the per-share strike without dividing by 100.
For two legs it is `lower_strike + net_premium/100` when at least one leg
is a call, else `upper_strike - net_premium/100`; rounded to 2 decimals
half-up. -/
theorem breakeven_single_point :
    ∀ (s : Strategy) (m : StrategyMetrics),
      calculate_strategy_metrics s = .ok m →
      m.breakeven_points.length = 1 ∧
      (∀ leg, s.legs = [leg] →
        m.breakeven_points =
          [roundHalfUpCents
            (match leg.contract.option_type with
             | .call => leg.contract.strike + |m.net_premium|
             | .put => leg.contract.strike - |m.net_premium|)]) ∧
      (∀ l1 l2, s.legs = [l1, l2] →
        m.breakeven_points =
          [roundHalfUpCents
            (if l1.contract.option_type = .call ∨ l2.contract.option_type = .call
             then min l1.contract.strike l2.contract.strike + m.net_premium / 100
             else max l1.contract.strike l2.contract.strike - m.net_premium / 100)]) := by
  intro s m h
  obtain ⟨hg, hm⟩ := ok_inv h
  subst hm
  refine ⟨?_, ?_, ?_⟩
  · rcases legs_cases hg with ⟨l, hl⟩ | ⟨l1, l2, hl⟩ <;>
      simp [hl, _calculate_breakeven_points]
  · intro leg hl
    simp only [hl]
    rcases leg with ⟨act, ⟨K, ot, bd, ak⟩, q⟩
    cases ot <;> simp [_calculate_breakeven_points]
  · intro l1 l2 hl
    simp only [hl]
    unfold _calculate_breakeven_points
    simp only [List.mem_cons, List.not_mem_nil, or_false, List.mem_singleton]
    rcases l1 with ⟨a1, ⟨K1, t1, b1, k1⟩, q1⟩
    rcases l2 with ⟨a2, ⟨K2, t2, b2, k2⟩, q2⟩
    cases t1 <;> cases t2 <;> simp

theorem breakeven_single_point_witness :
    buy877M.breakeven_points.length = 1 ∧
    buy877M.breakeven_points =
      [roundHalfUpCents (buy877Leg.contract.strike + |buy877M.net_premium|)] := by
  obtain ⟨h1, h2, _⟩ := breakeven_single_point buy877S buy877M buy877_eval
  exact ⟨h1, h2 buy877Leg rfl⟩

/-! Sold put whose bid exceeds its strike (C10). -/

def soldPutLeg : OptionLeg :=
  { action := .sell,
    contract := { strike := 5, option_type := .put, bid := 6, ask := 6 } }

def soldPutS : Strategy := ⟨[soldPutLeg]⟩

def soldPutM : StrategyMetrics :=
  { net_premium := 6, max_profit := 6, max_loss := 99999,
    breakeven_points := [-1], margin_requirement := 99999,
    return_on_margin := 0 }

theorem soldPut_eval : calculate_strategy_metrics soldPutS = .ok soldPutM := by
  have hnet : _calculate_net_premium soldPutS.legs = 6 := by
    show _calculate_net_premium [soldPutLeg] = _
    rw [net_one,
      show legSignedPremium soldPutLeg = 6 by
        norm_num [legSignedPremium, legPrice, soldPutLeg],
      roundHalfUpCents_eq_div (z := 600) (by rw [abs_lt]; norm_num)]
    norm_num
  rw [calc_ok (by simp [soldPutS])]
  refine congrArg Except.ok ?_
  rw [hnet]
  show StrategyMetrics.mk _ _ _ _ _ _ = _
  unfold soldPutM
  rw [StrategyMetrics.mk.injEq]
  refine ⟨rfl, ?_, ?_, ?_, ?_, ?_⟩
  · norm_num [soldPutS, _calculate_max_profit, soldPutLeg, sell_ne_buy, put_ne_call]
  · norm_num [soldPutS, _calculate_max_loss, soldPutLeg, sell_ne_buy]
  · show _calculate_breakeven_points [soldPutLeg] _ = _
    rw [show _calculate_breakeven_points [soldPutLeg] (6 : ℚ) =
        [roundHalfUpCents ((5 : ℚ) - |(6 : ℚ)|)] by
      norm_num [_calculate_breakeven_points, soldPutLeg]]
    rw [show (5 : ℚ) - |(6 : ℚ)| = -1 by
      rw [abs_of_nonneg (by norm_num)]; norm_num]
    rw [roundHalfUpCents_eq_div (z := -100) (by rw [abs_lt]; norm_num)]
    norm_num
  · norm_num [soldPutS, _calculate_max_loss, _calculate_margin_requirement,
      soldPutLeg, sell_ne_buy]
  · norm_num [soldPutS, _calculate_max_profit, _calculate_max_loss,
      _calculate_margin_requirement, _calculate_return_on_margin, soldPutLeg,
      sell_ne_buy, put_ne_call]

/-- C10: a validly constructed single-leg strategy (a sold put with
strike 5.00 and bid 6.00) yields a negative breakeven point, because the
single-leg formula subtracts the whole-contract dollar premium from the
per-share strike. -/
theorem negative_breakeven_reachable :
    soldPutS.Valid ∧
    calculate_strategy_metrics soldPutS = .ok soldPutM ∧
    soldPutM.breakeven_points = [-1] ∧ ((-1 : ℚ) < 0) := by
  refine ⟨⟨?_, by simp [soldPutS], by simp [soldPutS]⟩, soldPut_eval, rfl, by norm_num⟩
  intro l hl
  simp only [soldPutS, List.mem_singleton] at hl
  subst hl
  exact ⟨⟨by norm_num [soldPutLeg], by norm_num [soldPutLeg],
    by norm_num [soldPutLeg]⟩, by norm_num [soldPutLeg]⟩

/-! Single bought put (C4). -/

def boughtPutLeg : OptionLeg :=
  { action := .buy,
    contract := { strike := 140, option_type := .put, bid := 52/10, ask := 54/10 } }

def boughtPutS : Strategy := ⟨[boughtPutLeg]⟩

def boughtPutM : StrategyMetrics :=
  { net_premium := -(27/5), max_profit := 27/5, max_loss := 27/5,
    breakeven_points := [673/5], margin_requirement := 27/5,
    return_on_margin := 100 }

theorem boughtPut_eval :
    calculate_strategy_metrics boughtPutS = .ok boughtPutM := by
  have hnet : _calculate_net_premium boughtPutS.legs = -(27/5) := by
    show _calculate_net_premium [boughtPutLeg] = _
    rw [net_one,
      show legSignedPremium boughtPutLeg = -(54/10) by
        norm_num [legSignedPremium, legPrice, boughtPutLeg],
      roundHalfUpCents_eq_div (z := -540) (by rw [abs_lt]; norm_num)]
    norm_num
  rw [calc_ok (by simp [boughtPutS])]
  refine congrArg Except.ok ?_
  rw [hnet]
  show StrategyMetrics.mk _ _ _ _ _ _ = _
  unfold boughtPutM
  rw [StrategyMetrics.mk.injEq]
  refine ⟨rfl, ?_, ?_, ?_, ?_, ?_⟩
  · norm_num [boughtPutS, _calculate_max_profit, boughtPutLeg, abs_neg,
      abs_of_nonneg, buy_ne_sell, put_ne_call]
  · norm_num [boughtPutS, _calculate_max_loss, boughtPutLeg, abs_neg,
      abs_of_nonneg, buy_ne_sell]
  · show _calculate_breakeven_points [boughtPutLeg] _ = _
    rw [show _calculate_breakeven_points [boughtPutLeg] (-(27/5) : ℚ) =
        [roundHalfUpCents ((140 : ℚ) - |(-(27/5) : ℚ)|)] by
      norm_num [_calculate_breakeven_points, boughtPutLeg]]
    rw [show (140 : ℚ) - |(-(27/5) : ℚ)| = 673/5 by
      rw [abs_neg, abs_of_nonneg (by norm_num)]; norm_num]
    rw [roundHalfUpCents_eq_div (z := 13460) (by rw [abs_lt]; norm_num)]
    norm_num
  · norm_num [boughtPutS, _calculate_max_loss, _calculate_margin_requirement,
      boughtPutLeg, abs_neg, abs_of_nonneg, buy_ne_sell]
  · show _calculate_return_on_margin _ _ = _
    rw [show _calculate_max_profit boughtPutS.legs (-(27/5) : ℚ) = 27/5 by
      norm_num [boughtPutS, _calculate_max_profit, boughtPutLeg, abs_neg,
        abs_of_nonneg, buy_ne_sell, put_ne_call],
      show _calculate_margin_requirement
          (_calculate_max_loss boughtPutS.legs (-(27/5) : ℚ)) (-(27/5) : ℚ) = 27/5 by
      norm_num [boughtPutS, _calculate_max_loss, _calculate_margin_requirement,
        boughtPutLeg, abs_neg, abs_of_nonneg, buy_ne_sell]]
    unfold _calculate_return_on_margin
    rw [if_neg (by push_neg; norm_num),
      roundHalfUpCents_eq_div (z := 10000) (by rw [abs_lt]; norm_num)]
    norm_num

/-- C4 counterexample: the bought put `boughtPutS` is valid, yet its
max_profit is 5.40 (= |net_premium|), not the unbounded sentinel 99999
that the claim asserts. -/
theorem buy_put_sentinel_refuted :
    boughtPutS.Valid ∧
    calculate_strategy_metrics boughtPutS = .ok boughtPutM ∧
    boughtPutM.max_profit = 27/5 ∧ boughtPutM.max_profit ≠ 99999 := by
  refine ⟨⟨?_, by simp [boughtPutS], by simp [boughtPutS]⟩, boughtPut_eval,
    rfl, by norm_num [boughtPutM]⟩
  intro l hl
  simp only [boughtPutS, List.mem_singleton] at hl
  subst hl
  exact ⟨⟨by norm_num [boughtPutLeg], by norm_num [boughtPutLeg],
    by norm_num [boughtPutLeg]⟩, by norm_num [boughtPutLeg]⟩

/-- C4 (amended): for a single-leg strategy whose leg buys a put,
`calculate_strategy_metrics` returns `max_profit = |net_premium|` (the
premium paid); the unbounded-profit sentinel 99999 is used only for
bought calls. -/
theorem buy_put_profit_uses_premium :
    ∀ leg : OptionLeg, leg.action = .buy → leg.contract.option_type = .put →
      ∀ m, calculate_strategy_metrics ⟨[leg]⟩ = .ok m →
        m.max_profit = |m.net_premium| := by
  intro leg hb hp m h
  rw [(ok_inv h).2]
  show _calculate_max_profit [leg] _ = |_calculate_net_premium [leg]|
  simp [_calculate_max_profit, hb, hp]

theorem buy_put_profit_uses_premium_witness :
    calculate_strategy_metrics boughtPutS = .ok boughtPutM ∧
    boughtPutM.max_profit = |boughtPutM.net_premium| :=
  ⟨boughtPut_eval,
    buy_put_profit_uses_premium boughtPutLeg rfl rfl boughtPutM boughtPut_eval⟩

/-! Two-leg credit position whose bounded max_profit exceeds the 99999
sentinel without being equal to it (C6). -/

def bigCreditL1 : OptionLeg :=
  { action := .sell,
    contract := { strike := 1, option_type := .call, bid := 1001, ask := 1001 },
    quantity := 100 }

def bigCreditL2 : OptionLeg :=
  { action := .buy,
    contract := { strike := 2000, option_type := .call, bid := 1, ask := 1 } }

def bigCreditS : Strategy := ⟨[bigCreditL1, bigCreditL2]⟩

def bigCreditM : StrategyMetrics :=
  { net_premium := 100099, max_profit := 100099, max_loss := 99801,
    breakeven_points := [100199/100], margin_requirement := 99801,
    return_on_margin := 0 }

theorem bigCredit_eval :
    calculate_strategy_metrics bigCreditS = .ok bigCreditM := by
  have hnet : _calculate_net_premium bigCreditS.legs = 100099 := by
    show _calculate_net_premium [bigCreditL1, bigCreditL2] = _
    rw [net_two,
      show legSignedPremium bigCreditL1 = 100100 by
        norm_num [legSignedPremium, legPrice, bigCreditL1],
      show legSignedPremium bigCreditL2 = -1 by
        norm_num [legSignedPremium, legPrice, bigCreditL2],
      show (100100 : ℚ) + -1 = 100099 by norm_num,
      roundHalfUpCents_eq_div (z := 10009900) (by rw [abs_lt]; norm_num)]
    norm_num
  rw [calc_ok (by simp [bigCreditS])]
  refine congrArg Except.ok ?_
  rw [hnet]
  show StrategyMetrics.mk _ _ _ _ _ _ = _
  unfold bigCreditM
  rw [StrategyMetrics.mk.injEq]
  refine ⟨rfl, ?_, ?_, ?_, ?_, ?_⟩
  · norm_num [bigCreditS, _calculate_max_profit, bigCreditL1, bigCreditL2]
  · norm_num [bigCreditS, _calculate_max_loss, bigCreditL1, bigCreditL2,
      min_def, max_def]
  · show _calculate_breakeven_points [bigCreditL1, bigCreditL2] _ = _
    rw [show _calculate_breakeven_points [bigCreditL1, bigCreditL2]
          (100099 : ℚ) = [roundHalfUpCents ((1 : ℚ) + 100099 / 100)] by
      norm_num [_calculate_breakeven_points, bigCreditL1, bigCreditL2,
        min_def, max_def]]
    rw [roundHalfUpCents_eq_div (z := 100199) (by rw [abs_lt]; norm_num)]
    norm_num
  · norm_num [bigCreditS, _calculate_max_loss, _calculate_margin_requirement,
      bigCreditL1, bigCreditL2, min_def, max_def]
  · norm_num [bigCreditS, _calculate_max_profit, _calculate_max_loss,
      _calculate_margin_requirement, _calculate_return_on_margin,
      bigCreditL1, bigCreditL2, min_def, max_def]

/-- C6 counterexample: the valid strategy `bigCreditS` has bounded
margin 99801 (positive, not the sentinel) and max_profit 100099 ≠ 99999,
yet the code returns return_on_margin = 0 because its guard tests
`max_profit >= 99999`, while the claimed formula would give 100.30. -/
theorem return_on_margin_equals_refuted :
    bigCreditS.Valid ∧
    calculate_strategy_metrics bigCreditS = .ok bigCreditM ∧
    (0 < bigCreditM.margin_requirement ∧
      bigCreditM.max_profit ≠ 99999 ∧ bigCreditM.margin_requirement ≠ 99999) ∧
    bigCreditM.return_on_margin = 0 ∧
    roundHalfUpCents
        (bigCreditM.max_profit / bigCreditM.margin_requirement * 100) =
      10030/100 ∧
    ((10030/100 : ℚ) ≠ 0) := by
  refine ⟨⟨?_, by simp [bigCreditS], by simp [bigCreditS]⟩, bigCredit_eval,
    ⟨by norm_num [bigCreditM], by norm_num [bigCreditM], by norm_num [bigCreditM]⟩,
    rfl, ?_, by norm_num⟩
  · intro l hl
    simp only [bigCreditS, List.mem_cons, List.not_mem_nil, or_false,
      List.mem_singleton] at hl
    rcases hl with rfl | rfl
    · exact ⟨⟨by norm_num [bigCreditL1], by norm_num [bigCreditL1],
        by norm_num [bigCreditL1]⟩, by norm_num [bigCreditL1]⟩
    · exact ⟨⟨by norm_num [bigCreditL2], by norm_num [bigCreditL2],
        by norm_num [bigCreditL2]⟩, by norm_num [bigCreditL2]⟩
  · rw [show bigCreditM.max_profit / bigCreditM.margin_requirement * 100 =
        (10009900/99801 : ℚ) by norm_num [bigCreditM]]
    rw [roundHalfUpCents_eq_div (z := 10030) (by rw [abs_lt]; norm_num)]
    norm_num

/-- C6 (amended): return_on_margin is 0 whenever margin_requirement ≤ 0,
or max_profit ≥ 99999, or margin_requirement ≥ 99999 (the sentinel guard
uses ≥, not equality), and otherwise equals
(max_profit / margin_requirement) × 100 rounded to 2 decimals half-up. -/
theorem return_on_margin_guard :
    ∀ (s : Strategy) (m : StrategyMetrics),
      calculate_strategy_metrics s = .ok m →
      m.return_on_margin =
        if m.margin_requirement ≤ 0 ∨ 99999 ≤ m.max_profit ∨
            99999 ≤ m.margin_requirement
        then 0
        else roundHalfUpCents (m.max_profit / m.margin_requirement * 100) := by
  intro s m h
  rw [(ok_inv h).2]
  rfl

theorem return_on_margin_guard_witness :
    calculate_strategy_metrics boughtPutS = .ok boughtPutM ∧
    boughtPutM.return_on_margin =
      if boughtPutM.margin_requirement ≤ 0 ∨ 99999 ≤ boughtPutM.max_profit ∨
          99999 ≤ boughtPutM.margin_requirement
      then 0
      else roundHalfUpCents
        (boughtPutM.max_profit / boughtPutM.margin_requirement * 100) :=
  ⟨boughtPut_eval, return_on_margin_guard boughtPutS boughtPutM boughtPut_eval⟩

/-! Stored credit put spread (C7). -/

def creditPutL1 : OptionLeg :=
  { action := .sell,
    contract := { strike := 150, option_type := .put, bid := 8, ask := 82/10 } }

def creditPutL2 : OptionLeg :=
  { action := .buy,
    contract := { strike := 140, option_type := .put, bid := 45/10, ask := 47/10 } }

def creditPutS : Strategy := ⟨[creditPutL1, creditPutL2]⟩

def creditPutM : StrategyMetrics :=
  { net_premium := 33/10, max_profit := 33/10, max_loss := 9967/10,
    breakeven_points := [14997/100], margin_requirement := 9967/10,
    return_on_margin := 33/100 }

theorem creditPut_eval :
    calculate_strategy_metrics creditPutS = .ok creditPutM := by
  have hnet : _calculate_net_premium creditPutS.legs = 33/10 := by
    show _calculate_net_premium [creditPutL1, creditPutL2] = _
    rw [net_two,
      show legSignedPremium creditPutL1 = 8 by
        norm_num [legSignedPremium, legPrice, creditPutL1],
      show legSignedPremium creditPutL2 = -(47/10) by
        norm_num [legSignedPremium, legPrice, creditPutL2],
      show (8 : ℚ) + -(47/10) = 33/10 by norm_num,
      roundHalfUpCents_eq_div (z := 330) (by rw [abs_lt]; norm_num)]
    norm_num
  rw [calc_ok (by simp [creditPutS])]
  refine congrArg Except.ok ?_
  rw [hnet]
  show StrategyMetrics.mk _ _ _ _ _ _ = _
  unfold creditPutM
  rw [StrategyMetrics.mk.injEq]
  refine ⟨rfl, ?_, ?_, ?_, ?_, ?_⟩
  · norm_num [creditPutS, _calculate_max_profit, creditPutL1, creditPutL2]
  · norm_num [creditPutS, _calculate_max_loss, creditPutL1, creditPutL2,
      min_def, max_def]
  · show _calculate_breakeven_points [creditPutL1, creditPutL2] _ = _
    rw [show _calculate_breakeven_points [creditPutL1, creditPutL2]
          (33/10 : ℚ) = [roundHalfUpCents ((150 : ℚ) - 33/10 / 100)] by
      norm_num [_calculate_breakeven_points, creditPutL1, creditPutL2,
        min_def, max_def, put_ne_call, call_ne_put]]
    rw [show (150 : ℚ) - 33/10 / 100 = 149967/1000 by norm_num]
    rw [roundHalfUpCents_eq_div (z := 14997) (by rw [abs_lt]; norm_num)]
    norm_num
  · norm_num [creditPutS, _calculate_max_loss, _calculate_margin_requirement,
      creditPutL1, creditPutL2, min_def, max_def]
  · show _calculate_return_on_margin _ _ = _
    rw [show _calculate_max_profit creditPutS.legs (33/10 : ℚ) = 33/10 by
      norm_num [creditPutS, _calculate_max_profit, creditPutL1, creditPutL2],
      show _calculate_margin_requirement
          (_calculate_max_loss creditPutS.legs (33/10 : ℚ)) (33/10 : ℚ) =
          9967/10 by
      norm_num [creditPutS, _calculate_max_loss, _calculate_margin_requirement,
        creditPutL1, creditPutL2, min_def, max_def]]
    unfold _calculate_return_on_margin
    rw [if_neg (by push_neg; norm_num),
      show (33/10 : ℚ) / (9967/10) * 100 = 3300/9967 by norm_num,
      roundHalfUpCents_eq_div (z := 33) (by rw [abs_lt]; norm_num)]
    norm_num

/-- C7 counterexample: for the stored credit spread `creditPutS` (with
its own calculated metrics) and closing price 145 between the sorted
strikes, `calculate_final_pnl` returns the negated loss -996.70, not
`max_loss` = 996.70 as the claim states. -/
theorem final_pnl_credit_sign_refuted :
    calculate_strategy_metrics creditPutS = .ok creditPutM ∧
    0 ≤ creditPutM.net_premium ∧
    creditPutM.max_loss = 9967/10 ∧
    calculate_final_pnl creditPutS creditPutM 145 = -(9967/10) ∧
    calculate_final_pnl creditPutS creditPutM 145 ≠ creditPutM.max_loss := by
  refine ⟨creditPut_eval, by norm_num [creditPutM], rfl, ?_, ?_⟩
  · norm_num [calculate_final_pnl, creditPutS, creditPutM, creditPutL1,
      creditPutL2, min_def, max_def]
  · rw [show calculate_final_pnl creditPutS creditPutM 145 = -(9967/10) by
      norm_num [calculate_final_pnl, creditPutS, creditPutM, creditPutL1,
        creditPutL2, min_def, max_def]]
    norm_num [creditPutM]

/-- C7 (amended): `calculate_final_pnl` treats `net_premium > 0`
(strictly) as the credit case and there returns the NEGATED recorded
loss `-max_loss` when the closing price lies between the two sorted
strikes inclusive, else `max_profit`; when `net_premium ≤ 0` it returns
`max_profit` when the closing price is strictly above the first recorded
breakeven and the (positive) `max_loss` value otherwise. -/
theorem final_pnl_branches (s : Strategy) (m : StrategyMetrics) (p : ℚ) :
    (0 < m.net_premium →
      ∀ a b, s.legs.map (fun l => l.contract.strike) = [a, b] →
        calculate_final_pnl s m p =
          if min a b ≤ p ∧ p ≤ max a b then -m.max_loss else m.max_profit) ∧
    (m.net_premium ≤ 0 →
      ∀ bp rest, m.breakeven_points = bp :: rest →
        calculate_final_pnl s m p =
          if bp < p then m.max_profit else m.max_loss) := by
  constructor
  · intro hc a b hmap
    unfold calculate_final_pnl
    rw [if_pos hc, hmap]
  · intro hd bp rest hbp
    unfold calculate_final_pnl
    rw [if_neg (not_lt.mpr hd), hbp]

/-- Synthetic recorded metrics in the style of the journal tests. -/
def storedCreditM : StrategyMetrics :=
  { net_premium := 33/10, max_profit := 33/10, max_loss := 67/10,
    breakeven_points := [1467/10], margin_requirement := 67/10,
    return_on_margin := 4925/100 }

def storedDebitM : StrategyMetrics :=
  { net_premium := -(54/10), max_profit := 9946/10, max_loss := 54/10,
    breakeven_points := [14495/100], margin_requirement := 54/10,
    return_on_margin := 1841852/100 }

theorem final_pnl_branches_witness :
    0 < storedCreditM.net_premium ∧
    calculate_final_pnl creditPutS storedCreditM 145 =
      (if min (150 : ℚ) 140 ≤ 145 ∧ (145 : ℚ) ≤ max 150 140
       then -storedCreditM.max_loss else storedCreditM.max_profit) ∧
    storedDebitM.net_premium ≤ 0 ∧
    calculate_final_pnl creditPutS storedDebitM 151 =
      (if (14495/100 : ℚ) < 151 then storedDebitM.max_profit
       else storedDebitM.max_loss) := by
  refine ⟨by norm_num [storedCreditM], ?_, by norm_num [storedDebitM], ?_⟩
  · exact (final_pnl_branches creditPutS storedCreditM 145).1
      (by norm_num [storedCreditM]) 150 140
      (by simp [creditPutS, creditPutL1, creditPutL2])
  · exact (final_pnl_branches creditPutS storedDebitM 151).2
      (by norm_num [storedDebitM]) (14495/100) [] rfl

/-! Tie-rounding example for the payoff quantization (C9). -/

def tieLeg : OptionLeg :=
  { action := .buy,
    contract := { strike := 10, option_type := .call, bid := 8005/1000,
                  ask := 8005/1000 } }

theorem roundHalfEven_tie_example : roundHalfEvenCents (-(8005/1000)) = -8 := by
  unfold roundHalfEvenCents
  rw [show ((-(8005/1000) : ℚ) * 100) = -1601/2 by norm_num]
  have hf : ⌊(-1601/2 : ℚ)⌋ = -801 := by
    rw [Int.floor_eq_iff]
    constructor
    · push_cast; norm_num
    · push_cast; norm_num
  simp only [roundHalfEvenInt]
  rw [hf]
  rw [if_neg (by push_cast; norm_num), if_neg (by push_cast; norm_num),
    if_neg (by omega)]
  norm_num

theorem roundHalfUp_tie_example :
    roundHalfUpCents (-(8005/1000)) = -(801/100) := by
  unfold roundHalfUpCents
  rw [show ((-(8005/1000) : ℚ) * 100) = -1601/2 by norm_num,
    roundHalfUpInt_tie_neg (z := -801) (by norm_num) (by push_cast; norm_num)]
  norm_num

/-- C9 counterexample: at stock price 5 the exact leg-payoff total of
`[tieLeg]` is -8.005; the code rounds it to -8.00 (ties to even), while
the claimed round-half-up gives -8.01. -/
theorem payoff_half_up_refuted :
    payoffSumSpec [tieLeg] 5 = -(8005/1000) ∧
    _calculate_payoff_at_price [tieLeg] 5 = -8 ∧
    roundHalfUpCents (payoffSumSpec [tieLeg] 5) = -(801/100) ∧
    _calculate_payoff_at_price [tieLeg] 5 ≠
      roundHalfUpCents (payoffSumSpec [tieLeg] 5) := by
  have hsum : payoffSumSpec [tieLeg] 5 = -(8005/1000) := by
    norm_num [payoffSumSpec, legPayoff, tieLeg, max_def]
  have heven : _calculate_payoff_at_price [tieLeg] 5 = -8 := by
    rw [payoff_eq_spec, hsum, roundHalfEven_tie_example]
  refine ⟨hsum, heven, ?_, ?_⟩
  · rw [hsum, roundHalfUp_tie_example]
  · rw [heven, hsum, roundHalfUp_tie_example]
    norm_num

/-- C9 (amended): the total payoff returned by
`_calculate_payoff_at_price` is the exact decimal sum of the per-leg
payoffs rounded to 2 decimal places with ROUND_HALF_EVEN (banker's
rounding, the `Decimal.quantize` default) — not round-half-up; an exact
total of -8.005 rounds to -8.00, the even cent. -/
theorem payoff_rounds_half_even :
    (∀ (legs : List OptionLeg) (p : ℚ),
      _calculate_payoff_at_price legs p =
        roundHalfEvenCents (payoffSumSpec legs p)) ∧
    roundHalfEvenCents (-(8005/1000)) = -8 :=
  ⟨payoff_eq_spec, roundHalfEven_tie_example⟩

/-! ## Leg-level reduction lemmas -/

theorem legSignedPremium_buy {l : OptionLeg} (h : l.action = .buy) :
    legSignedPremium l = -(l.contract.ask * (l.quantity : ℚ)) := by
  unfold legSignedPremium legPrice
  rw [h]

theorem legSignedPremium_sell {l : OptionLeg} (h : l.action = .sell) :
    legSignedPremium l = l.contract.bid * (l.quantity : ℚ) := by
  unfold legSignedPremium legPrice
  rw [h]

theorem legPayoff_buy_call {l : OptionLeg} (h : l.action = .buy)
    (ht : l.contract.option_type = .call) (p : ℚ) :
    legPayoff l p = max 0 (p - l.contract.strike) * 100 * (l.quantity : ℚ) -
      l.contract.ask * (l.quantity : ℚ) := by
  unfold legPayoff
  rw [h, ht]

theorem legPayoff_buy_put {l : OptionLeg} (h : l.action = .buy)
    (ht : l.contract.option_type = .put) (p : ℚ) :
    legPayoff l p = max 0 (l.contract.strike - p) * 100 * (l.quantity : ℚ) -
      l.contract.ask * (l.quantity : ℚ) := by
  unfold legPayoff
  rw [h, ht]

theorem legPayoff_sell_call {l : OptionLeg} (h : l.action = .sell)
    (ht : l.contract.option_type = .call) (p : ℚ) :
    legPayoff l p = l.contract.bid * (l.quantity : ℚ) -
      max 0 (p - l.contract.strike) * 100 * (l.quantity : ℚ) := by
  unfold legPayoff
  rw [h, ht]

theorem legPayoff_sell_put {l : OptionLeg} (h : l.action = .sell)
    (ht : l.contract.option_type = .put) (p : ℚ) :
    legPayoff l p = l.contract.bid * (l.quantity : ℚ) -
      max 0 (l.contract.strike - p) * 100 * (l.quantity : ℚ) := by
  unfold legPayoff
  rw [h, ht]

theorem max_profit_two (l1 l2 : OptionLeg) (net : ℚ) :
    _calculate_max_profit [l1, l2] net =
      if 0 ≤ net then net
      else (max l1.contract.strike l2.contract.strike -
        min l1.contract.strike l2.contract.strike) * 100 + net := rfl

theorem max_loss_two (l1 l2 : OptionLeg) (net : ℚ) :
    _calculate_max_loss [l1, l2] net =
      if 0 ≤ net then
        (max l1.contract.strike l2.contract.strike -
          min l1.contract.strike l2.contract.strike) * 100 - net
      else |net| := rfl

theorem den_one_hundred : ((100 : ℚ)).den = 1 := by
  rw [show (100 : ℚ) = ((100 : ℤ) : ℚ) by norm_num]
  exact Rat.den_intCast _

/-! Two sold calls: a valid two-leg strategy that is not a vertical
spread (C5 counterexample). -/

def twoSellL1 : OptionLeg :=
  { action := .sell,
    contract := { strike := 5, option_type := .call, bid := 1, ask := 1 } }

def twoSellL2 : OptionLeg :=
  { action := .sell,
    contract := { strike := 10, option_type := .call, bid := 1, ask := 1 } }

def twoSellS : Strategy := ⟨[twoSellL1, twoSellL2]⟩

def twoSellM : StrategyMetrics :=
  { net_premium := 2, max_profit := 2, max_loss := 498,
    breakeven_points := [502/100], margin_requirement := 498,
    return_on_margin := 2/5 }

theorem twoSell_eval :
    calculate_strategy_metrics twoSellS = .ok twoSellM := by
  have hnet : _calculate_net_premium twoSellS.legs = 2 := by
    show _calculate_net_premium [twoSellL1, twoSellL2] = _
    rw [net_two,
      show legSignedPremium twoSellL1 = 1 by
        norm_num [legSignedPremium, legPrice, twoSellL1],
      show legSignedPremium twoSellL2 = 1 by
        norm_num [legSignedPremium, legPrice, twoSellL2],
      show (1 : ℚ) + 1 = 2 by norm_num,
      roundHalfUpCents_eq_div (z := 200) (by rw [abs_lt]; norm_num)]
    norm_num
  rw [calc_ok (by simp [twoSellS])]
  refine congrArg Except.ok ?_
  rw [hnet]
  show StrategyMetrics.mk _ _ _ _ _ _ = _
  unfold twoSellM
  rw [StrategyMetrics.mk.injEq]
  refine ⟨rfl, ?_, ?_, ?_, ?_, ?_⟩
  · norm_num [twoSellS, _calculate_max_profit, twoSellL1, twoSellL2]
  · norm_num [twoSellS, _calculate_max_loss, twoSellL1, twoSellL2,
      min_def, max_def]
  · show _calculate_breakeven_points [twoSellL1, twoSellL2] _ = _
    rw [show _calculate_breakeven_points [twoSellL1, twoSellL2] (2 : ℚ) =
        [roundHalfUpCents ((5 : ℚ) + 2 / 100)] by
      norm_num [_calculate_breakeven_points, twoSellL1, twoSellL2,
        min_def, max_def]]
    rw [show (5 : ℚ) + 2 / 100 = 502/100 by norm_num]
    rw [roundHalfUpCents_eq_div (z := 502) (by rw [abs_lt]; norm_num)]
    norm_num
  · norm_num [twoSellS, _calculate_max_loss, _calculate_margin_requirement,
      twoSellL1, twoSellL2, min_def, max_def]
  · show _calculate_return_on_margin _ _ = _
    rw [show _calculate_max_profit twoSellS.legs (2 : ℚ) = 2 by
      norm_num [twoSellS, _calculate_max_profit, twoSellL1, twoSellL2],
      show _calculate_margin_requirement
          (_calculate_max_loss twoSellS.legs (2 : ℚ)) (2 : ℚ) = 498 by
      norm_num [twoSellS, _calculate_max_loss, _calculate_margin_requirement,
        twoSellL1, twoSellL2, min_def, max_def]]
    unfold _calculate_return_on_margin
    rw [if_neg (by push_neg; norm_num),
      show (2 : ℚ) / 498 * 100 = 100/249 by norm_num,
      roundHalfUpCents_eq_div (z := 40) (by rw [abs_lt]; norm_num)]
    norm_num

/-- C5 counterexample: the valid two-leg strategy `twoSellS` (two sold
calls) has payoff -2498 at settlement price 20, strictly above both
strikes, which equals neither `max_profit` (2) nor `-max_loss` (-498). -/
theorem payoff_extremes_refuted :
    twoSellS.Valid ∧
    calculate_strategy_metrics twoSellS = .ok twoSellM ∧
    max twoSellL1.contract.strike twoSellL2.contract.strike < 20 ∧
    _calculate_payoff_at_price twoSellS.legs 20 = -2498 ∧
    ((-2498 : ℚ) ≠ twoSellM.max_profit ∧ (-2498 : ℚ) ≠ -twoSellM.max_loss) := by
  refine ⟨⟨?_, by simp [twoSellS], by simp [twoSellS]⟩, twoSell_eval,
    by norm_num [twoSellL1, twoSellL2, max_def], ?_,
    by norm_num [twoSellM], by norm_num [twoSellM]⟩
  · intro l hl
    simp only [twoSellS, List.mem_cons, List.not_mem_nil, or_false,
      List.mem_singleton] at hl
    rcases hl with rfl | rfl
    · exact ⟨⟨by norm_num [twoSellL1], by norm_num [twoSellL1],
        by norm_num [twoSellL1]⟩, by norm_num [twoSellL1]⟩
    · exact ⟨⟨by norm_num [twoSellL2], by norm_num [twoSellL2],
        by norm_num [twoSellL2]⟩, by norm_num [twoSellL2]⟩
  · show _calculate_payoff_at_price [twoSellL1, twoSellL2] 20 = _
    rw [payoff_two,
      show legPayoff twoSellL1 20 = -1499 by
        norm_num [legPayoff, twoSellL1, max_def],
      show legPayoff twoSellL2 20 = -999 by
        norm_num [legPayoff, twoSellL2, max_def],
      show (-1499 : ℚ) + -999 = -2498 by norm_num,
      roundHalfEvenCents_eq_div (z := -249800) (by rw [abs_lt]; norm_num)]
    norm_num

/-- C5 (amended): for a quantity-1 vertical spread — one bought and one
sold option of the same type on distinct strikes, with all prices and
strikes in whole cents — whose net premium is a credit exactly when the
sold strike is the short-side strike (below the bought strike for calls,
above it for puts), the payoff at any settlement price strictly beyond
both strikes equals `max_profit` on the profitable side and `-max_loss`
on the unprofitable side. -/
theorem vertical_spread_payoff_extremes
    (lb ls : OptionLeg)
    (hab : lb.action = .buy) (has : ls.action = .sell)
    (hty : lb.contract.option_type = ls.contract.option_type)
    (hqb : lb.quantity = 1) (hqs : ls.quantity = 1)
    (hcb : (lb.contract.ask * 100).den = 1)
    (hcs : (ls.contract.bid * 100).den = 1)
    (hkb : (lb.contract.strike * 100).den = 1)
    (hks : (ls.contract.strike * 100).den = 1)
    (hne : ls.contract.strike ≠ lb.contract.strike)
    (hdir : 0 ≤ _calculate_net_premium [lb, ls] ↔
      (lb.contract.option_type = .call ∧
        ls.contract.strike < lb.contract.strike) ∨
      (lb.contract.option_type = .put ∧
        lb.contract.strike < ls.contract.strike)) :
    ∀ m, calculate_strategy_metrics ⟨[lb, ls]⟩ = .ok m →
      ∀ p : ℚ,
        (p < min lb.contract.strike ls.contract.strike →
          _calculate_payoff_at_price [lb, ls] p =
            (if ls.contract.strike < lb.contract.strike
             then m.max_profit else -m.max_loss)) ∧
        (max lb.contract.strike ls.contract.strike < p →
          _calculate_payoff_at_price [lb, ls] p =
            (if ls.contract.strike < lb.contract.strike
             then -m.max_loss else m.max_profit)) := by
  intro m hm p
  have hmp : m.max_profit =
      _calculate_max_profit [lb, ls] (_calculate_net_premium [lb, ls]) := by
    rw [(ok_inv hm).2]
  have hml : m.max_loss =
      _calculate_max_loss [lb, ls] (_calculate_net_premium [lb, ls]) := by
    rw [(ok_inv hm).2]
  have hdennet : ((ls.contract.bid - lb.contract.ask) * 100).den = 1 := by
    rw [sub_mul]
    exact den_one_sub hcs hcb
  have hnet : _calculate_net_premium [lb, ls] =
      ls.contract.bid - lb.contract.ask := by
    rw [net_two, legSignedPremium_buy hab, legSignedPremium_sell has, hqb, hqs,
      show -(lb.contract.ask * ((1 : ℕ) : ℚ)) +
          ls.contract.bid * ((1 : ℕ) : ℚ) =
          ls.contract.bid - lb.contract.ask by push_cast; ring]
    exact roundHalfUpCents_eq_self hdennet
  have hdenspread :
      (((ls.contract.strike - lb.contract.strike) * 100 +
        (ls.contract.bid - lb.contract.ask)) * 100).den = 1 := by
    rw [show ((ls.contract.strike - lb.contract.strike) * 100 +
        (ls.contract.bid - lb.contract.ask)) * 100 =
        (ls.contract.strike * 100) * 100 - (lb.contract.strike * 100) * 100 +
        (ls.contract.bid * 100 - lb.contract.ask * 100) by ring]
    exact den_one_add
      (den_one_sub (den_one_mul hks den_one_hundred)
        (den_one_mul hkb den_one_hundred))
      (den_one_sub hcs hcb)
  have hdenspread2 :
      (((lb.contract.strike - ls.contract.strike) * 100 +
        (ls.contract.bid - lb.contract.ask)) * 100).den = 1 := by
    rw [show ((lb.contract.strike - ls.contract.strike) * 100 +
        (ls.contract.bid - lb.contract.ask)) * 100 =
        (lb.contract.strike * 100) * 100 - (ls.contract.strike * 100) * 100 +
        (ls.contract.bid * 100 - lb.contract.ask * 100) by ring]
    exact den_one_add
      (den_one_sub (den_one_mul hkb den_one_hundred)
        (den_one_mul hks den_one_hundred))
      (den_one_sub hcs hcb)
  rw [hmp, hml, max_profit_two, max_loss_two, hnet]
  cases hc : lb.contract.option_type with
  | call =>
    have hcs' : ls.contract.option_type = .call := hty.symm.trans hc
    have hlow : p < min lb.contract.strike ls.contract.strike →
        _calculate_payoff_at_price [lb, ls] p =
          ls.contract.bid - lb.contract.ask := by
      intro hp
      obtain ⟨hp1, hp2⟩ := lt_min_iff.mp hp
      rw [payoff_two, legPayoff_buy_call hab hc, legPayoff_sell_call has hcs',
        hqb, hqs,
        max_eq_left (by linarith : p - lb.contract.strike ≤ 0),
        max_eq_left (by linarith : p - ls.contract.strike ≤ 0),
        show (0 : ℚ) * 100 * ((1 : ℕ) : ℚ) -
            lb.contract.ask * ((1 : ℕ) : ℚ) +
            (ls.contract.bid * ((1 : ℕ) : ℚ) -
              (0 : ℚ) * 100 * ((1 : ℕ) : ℚ)) =
            ls.contract.bid - lb.contract.ask by push_cast; ring]
      exact roundHalfEvenCents_eq_self hdennet
    have hhigh : max lb.contract.strike ls.contract.strike < p →
        _calculate_payoff_at_price [lb, ls] p =
          (ls.contract.strike - lb.contract.strike) * 100 +
            (ls.contract.bid - lb.contract.ask) := by
      intro hp
      obtain ⟨hp1, hp2⟩ := max_lt_iff.mp hp
      rw [payoff_two, legPayoff_buy_call hab hc, legPayoff_sell_call has hcs',
        hqb, hqs,
        max_eq_right (by linarith : (0 : ℚ) ≤ p - lb.contract.strike),
        max_eq_right (by linarith : (0 : ℚ) ≤ p - ls.contract.strike),
        show (p - lb.contract.strike) * 100 * ((1 : ℕ) : ℚ) -
            lb.contract.ask * ((1 : ℕ) : ℚ) +
            (ls.contract.bid * ((1 : ℕ) : ℚ) -
              (p - ls.contract.strike) * 100 * ((1 : ℕ) : ℚ)) =
            (ls.contract.strike - lb.contract.strike) * 100 +
              (ls.contract.bid - lb.contract.ask) by push_cast; ring]
      exact roundHalfEvenCents_eq_self hdenspread
    rcases le_or_lt 0 (ls.contract.bid - lb.contract.ask) with hle | hlt
    · have hKsKb : ls.contract.strike < lb.contract.strike := by
        rcases hdir.mp (by rw [hnet]; exact hle) with ⟨_, h⟩ | ⟨hput, _⟩
        · exact h
        · rw [hc] at hput
          exact absurd hput call_ne_put
      constructor
      · intro hp
        rw [hlow hp, if_pos hKsKb, if_pos hle]
      · intro hp
        rw [hhigh hp, if_pos hKsKb, if_pos hle,
          max_eq_left hKsKb.le, min_eq_right hKsKb.le]
        ring
    · have hKbKs : lb.contract.strike < ls.contract.strike := by
        have hnot : ¬((lb.contract.option_type = .call ∧
            ls.contract.strike < lb.contract.strike) ∨
            (lb.contract.option_type = .put ∧
              lb.contract.strike < ls.contract.strike)) := by
          intro hcontra
          exact absurd (hdir.mpr hcontra) (by rw [hnet]; exact not_le.mpr hlt)
        have hnl : ¬(ls.contract.strike < lb.contract.strike) :=
          fun hlt2 => hnot (.inl ⟨hc, hlt2⟩)
        exact lt_of_le_of_ne (not_lt.mp hnl) (Ne.symm hne)
      have hnotif : ¬(ls.contract.strike < lb.contract.strike) :=
        lt_asymm hKbKs
      constructor
      · intro hp
        rw [hlow hp, if_neg hnotif, if_neg (not_le.mpr hlt), abs_of_neg hlt]
        ring
      · intro hp
        rw [hhigh hp, if_neg hnotif, if_neg (not_le.mpr hlt),
          max_eq_right hKbKs.le, min_eq_left hKbKs.le]
  | put =>
    have hcs' : ls.contract.option_type = .put := hty.symm.trans hc
    have hlow : p < min lb.contract.strike ls.contract.strike →
        _calculate_payoff_at_price [lb, ls] p =
          (lb.contract.strike - ls.contract.strike) * 100 +
            (ls.contract.bid - lb.contract.ask) := by
      intro hp
      obtain ⟨hp1, hp2⟩ := lt_min_iff.mp hp
      rw [payoff_two, legPayoff_buy_put hab hc, legPayoff_sell_put has hcs',
        hqb, hqs,
        max_eq_right (by linarith : (0 : ℚ) ≤ lb.contract.strike - p),
        max_eq_right (by linarith : (0 : ℚ) ≤ ls.contract.strike - p),
        show (lb.contract.strike - p) * 100 * ((1 : ℕ) : ℚ) -
            lb.contract.ask * ((1 : ℕ) : ℚ) +
            (ls.contract.bid * ((1 : ℕ) : ℚ) -
              (ls.contract.strike - p) * 100 * ((1 : ℕ) : ℚ)) =
            (lb.contract.strike - ls.contract.strike) * 100 +
              (ls.contract.bid - lb.contract.ask) by push_cast; ring]
      exact roundHalfEvenCents_eq_self hdenspread2
    have hhigh : max lb.contract.strike ls.contract.strike < p →
        _calculate_payoff_at_price [lb, ls] p =
          ls.contract.bid - lb.contract.ask := by
      intro hp
      obtain ⟨hp1, hp2⟩ := max_lt_iff.mp hp
      rw [payoff_two, legPayoff_buy_put hab hc, legPayoff_sell_put has hcs',
        hqb, hqs,
        max_eq_left (by linarith : lb.contract.strike - p ≤ 0),
        max_eq_left (by linarith : ls.contract.strike - p ≤ 0),
        show (0 : ℚ) * 100 * ((1 : ℕ) : ℚ) -
            lb.contract.ask * ((1 : ℕ) : ℚ) +
            (ls.contract.bid * ((1 : ℕ) : ℚ) -
              (0 : ℚ) * 100 * ((1 : ℕ) : ℚ)) =
            ls.contract.bid - lb.contract.ask by push_cast; ring]
      exact roundHalfEvenCents_eq_self hdennet
    rcases le_or_lt 0 (ls.contract.bid - lb.contract.ask) with hle | hlt
    · have hKbKs : lb.contract.strike < ls.contract.strike := by
        rcases hdir.mp (by rw [hnet]; exact hle) with ⟨hcall, _⟩ | ⟨_, h⟩
        · rw [hc] at hcall
          exact absurd hcall put_ne_call
        · exact h
      have hnotif : ¬(ls.contract.strike < lb.contract.strike) :=
        lt_asymm hKbKs
      constructor
      · intro hp
        rw [hlow hp, if_neg hnotif, if_pos hle,
          max_eq_right hKbKs.le, min_eq_left hKbKs.le]
        ring
      · intro hp
        rw [hhigh hp, if_neg hnotif, if_pos hle]
    · have hKsKb : ls.contract.strike < lb.contract.strike := by
        have hnot : ¬((lb.contract.option_type = .call ∧
            ls.contract.strike < lb.contract.strike) ∨
            (lb.contract.option_type = .put ∧
              lb.contract.strike < ls.contract.strike)) := by
          intro hcontra
          exact absurd (hdir.mpr hcontra) (by rw [hnet]; exact not_le.mpr hlt)
        have hnl : ¬(lb.contract.strike < ls.contract.strike) :=
          fun hlt2 => hnot (.inr ⟨hc, hlt2⟩)
        exact lt_of_le_of_ne (not_lt.mp hnl) hne
      constructor
      · intro hp
        rw [hlow hp, if_pos hKsKb, if_neg (not_le.mpr hlt),
          max_eq_left hKsKb.le, min_eq_right hKsKb.le]
      · intro hp
        rw [hhigh hp, if_pos hKsKb, if_neg (not_le.mpr hlt), abs_of_neg hlt]
        ring

/-! Bull call spread of spec §8 (C5 witness). -/

def bullL1 : OptionLeg :=
  { action := .buy,
    contract := { strike := 145, option_type := .call, bid := 12, ask := 122/10 } }

def bullL2 : OptionLeg :=
  { action := .sell,
    contract := { strike := 155, option_type := .call, bid := 68/10, ask := 7 } }

def bullS : Strategy := ⟨[bullL1, bullL2]⟩

def bullM : StrategyMetrics :=
  { net_premium := -(27/5), max_profit := 4973/5, max_loss := 27/5,
    breakeven_points := [14495/100], margin_requirement := 27/5,
    return_on_margin := 1841852/100 }

theorem bullNet : _calculate_net_premium [bullL1, bullL2] = -(27/5) := by
  rw [net_two,
    show legSignedPremium bullL1 = -(122/10) by
      norm_num [legSignedPremium, legPrice, bullL1],
    show legSignedPremium bullL2 = 68/10 by
      norm_num [legSignedPremium, legPrice, bullL2],
    show (-(122/10) : ℚ) + 68/10 = -(27/5) by norm_num,
    roundHalfUpCents_eq_div (z := -540) (by rw [abs_lt]; norm_num)]
  norm_num

theorem bull_eval : calculate_strategy_metrics bullS = .ok bullM := by
  have hnet : _calculate_net_premium bullS.legs = -(27/5) := bullNet
  rw [calc_ok (by simp [bullS])]
  refine congrArg Except.ok ?_
  rw [hnet]
  show StrategyMetrics.mk _ _ _ _ _ _ = _
  unfold bullM
  rw [StrategyMetrics.mk.injEq]
  refine ⟨rfl, ?_, ?_, ?_, ?_, ?_⟩
  · norm_num [bullS, _calculate_max_profit, bullL1, bullL2, min_def, max_def]
  · norm_num [bullS, _calculate_max_loss, bullL1, bullL2, min_def, max_def,
      abs_neg, abs_of_nonneg]
  · show _calculate_breakeven_points [bullL1, bullL2] _ = _
    rw [show _calculate_breakeven_points [bullL1, bullL2] (-(27/5) : ℚ) =
        [roundHalfUpCents ((145 : ℚ) + -(27/5) / 100)] by
      norm_num [_calculate_breakeven_points, bullL1, bullL2, min_def, max_def]]
    rw [show (145 : ℚ) + -(27/5) / 100 = 72473/500 by norm_num]
    rw [roundHalfUpCents_eq_div (z := 14495) (by rw [abs_lt]; norm_num)]
    norm_num
  · norm_num [bullS, _calculate_max_loss, _calculate_margin_requirement,
      bullL1, bullL2, min_def, max_def, abs_neg, abs_of_nonneg]
  · show _calculate_return_on_margin _ _ = _
    rw [show _calculate_max_profit bullS.legs (-(27/5) : ℚ) = 4973/5 by
      norm_num [bullS, _calculate_max_profit, bullL1, bullL2, min_def, max_def],
      show _calculate_margin_requirement
          (_calculate_max_loss bullS.legs (-(27/5) : ℚ)) (-(27/5) : ℚ) =
          27/5 by
      norm_num [bullS, _calculate_max_loss, _calculate_margin_requirement,
        bullL1, bullL2, min_def, max_def, abs_neg, abs_of_nonneg]]
    unfold _calculate_return_on_margin
    rw [if_neg (by push_neg; norm_num),
      show (4973/5 : ℚ) / (27/5) * 100 = 497300/27 by norm_num,
      roundHalfUpCents_eq_div (z := 1841852) (by rw [abs_lt]; norm_num)]
    norm_num

theorem vertical_spread_payoff_extremes_witness :
    _calculate_payoff_at_price [bullL1, bullL2] 100 =
      (if bullL2.contract.strike < bullL1.contract.strike
       then bullM.max_profit else -bullM.max_loss) ∧
    _calculate_payoff_at_price [bullL1, bullL2] 200 =
      (if bullL2.contract.strike < bullL1.contract.strike
       then -bullM.max_loss else bullM.max_profit) := by
  have H := vertical_spread_payoff_extremes bullL1 bullL2 rfl rfl rfl rfl rfl
    (by rw [show bullL1.contract.ask * 100 = ((1220 : ℤ) : ℚ) by
          norm_num [bullL1]]
        exact Rat.den_intCast _)
    (by rw [show bullL2.contract.bid * 100 = ((680 : ℤ) : ℚ) by
          norm_num [bullL2]]
        exact Rat.den_intCast _)
    (by rw [show bullL1.contract.strike * 100 = ((14500 : ℤ) : ℚ) by
          norm_num [bullL1]]
        exact Rat.den_intCast _)
    (by rw [show bullL2.contract.strike * 100 = ((15500 : ℤ) : ℚ) by
          norm_num [bullL2]]
        exact Rat.den_intCast _)
    (by norm_num [bullL1, bullL2])
    (by rw [bullNet]; norm_num [bullL1, bullL2, call_ne_put])
    bullM bull_eval
  exact ⟨(H 100).1 (by norm_num [bullL1, bullL2, lt_min_iff]),
    (H 200).2 (by norm_num [bullL1, bullL2, max_lt_iff])⟩

end OptionPilot
